import Mathlib

/-!
Verification of the BigQuery optimizer's template-discovery core
(`backend_api/main_firestore.py`, `backend_api/information_schema_scanner.py`,
`backend_api/firestore_templates.py`), shallowly embedded in Lean 4.

Conventions of the embedding:
* Python `str` is `String` / `List Char`; all inputs of interest are ASCII, so
  Python's Unicode-aware `upper` / `strip` / `split` agree with the ASCII
  versions modelled here.
* Python `int` is `Int` (arbitrary precision in Python, so no wrap-around).
* Python `float` arithmetic over the small dollar amounts and byte counts used
  here is modelled with `Rat`; each place where exactness of the model needs a
  justification carries a comment.
* `re.sub` is modelled by explicit left-to-right scanners that reproduce the
  leftmost, non-overlapping match semantics of the concrete patterns used in
  the source (the scanners were cross-checked against CPython's `re` on the
  inputs appearing below).
* Recursion over strings uses an explicit fuel argument (always instantiated
  with the input length plus one, which is enough since every step consumes at
  least one character) so every definition is structurally recursive and
  kernel-reducible.
-/

namespace BQOpt

/-! ## Character classes (Python `re` / `str` semantics, ASCII fragment) -/

/-- Python `str.split()` / `str.strip()` / regex `\s` whitespace, ASCII part. -/
def isPySpace (c : Char) : Bool :=
  c = ' ' || c = '\t' || c = '\n' || c = '\r' || c = '\x0b' || c = '\x0c'

/-- Regex word character `\w` (ASCII part), used by the `\b` boundaries of
`\b\d+\.?\d*\b`. -/
def isWordChar (c : Char) : Bool :=
  c.isAlpha || c.isDigit || c = '_'

/-! ## `normalize_sql_pattern` (backend_api/main_firestore.py lines 166-189)

```python
def normalize_sql_pattern(sql: str) -> str:
    if not sql:
        return ""
    normalized = re.sub(r"--.*$", "", sql, flags=re.MULTILINE)
    normalized = re.sub(r"/\x2a[\s\S]*?\x2a/", "", normalized)
    normalized = " ".join(normalized.split())
    normalized = re.sub(r"'[^']*'", "?", normalized)
    normalized = re.sub(r"\x22[^\x22]*\x22", "?", normalized)
    normalized = re.sub(r"\b\d+\.?\d*\b", "?", normalized)
    normalized = re.sub(r"DATE\s*\([^)]+\)", "DATE(?)", normalized, flags=re.IGNORECASE)
    normalized = re.sub(r"TIMESTAMP\s*\([^)]+\)", "TIMESTAMP(?)", normalized, flags=re.IGNORECASE)
    return normalized.upper().strip()
```
-/

/-- Drop characters up to (but not including) the next newline: the tail of a
`--.*$` match under `re.MULTILINE`, where `.` does not match `'\n'`. -/
def dropToNewline : List Char → List Char
  | [] => []
  | '\n' :: rest => '\n' :: rest
  | _ :: rest => dropToNewline rest

/-- `re.sub(r"--.*$", "", s, flags=re.MULTILINE)`: every occurrence of `--`
starts a match reaching to the end of its line. -/
def stripLineComments : Nat → List Char → List Char
  | 0, s => s
  | _ + 1, [] => []
  | fuel + 1, '-' :: '-' :: rest => stripLineComments fuel (dropToNewline rest)
  | fuel + 1, c :: rest => c :: stripLineComments fuel rest

/-- The text after the first `*/`, if any. -/
def afterBlockClose : List Char → Option (List Char)
  | [] => none
  | '*' :: '/' :: rest => some rest
  | _ :: rest => afterBlockClose rest

/-- `re.sub` for the block-comment pattern (`/*` up to the nearest `*/`,
lazily): a `/*` with no later `*/` matches nothing, and then no later
position can start a match either, so the rest is kept verbatim. -/
def stripBlockComments : Nat → List Char → List Char
  | 0, s => s
  | _ + 1, [] => []
  | fuel + 1, '/' :: '*' :: rest =>
    match afterBlockClose rest with
    | some rest2 => stripBlockComments fuel rest2
    | none => '/' :: '*' :: rest
  | fuel + 1, c :: rest => c :: stripBlockComments fuel rest

/-- Python `s.split()`: maximal runs of non-whitespace characters. -/
def pyWords : List Char → List Char → List (List Char)
  | [], acc => if acc.isEmpty then [] else [acc.reverse]
  | c :: rest, acc =>
    if isPySpace c then
      if acc.isEmpty then pyWords rest [] else acc.reverse :: pyWords rest []
    else pyWords rest (c :: acc)

/-- `" ".join(s.split())`: collapse whitespace runs to single spaces and trim. -/
def collapseWs (s : List Char) : List Char :=
  List.intercalate [' '] (pyWords s [])

/-- The text after the next occurrence of the quote character `q`, if any. -/
def afterQuote (q : Char) : List Char → Option (List Char)
  | [] => none
  | c :: rest => if c = q then some rest else afterQuote q rest

/-- `re.sub` for `'[^']*'` (resp. `"[^"]*"`): each pair of quotes becomes a
single `?`; an unpaired trailing quote matches nothing. -/
def replaceQuoted (q : Char) : Nat → List Char → List Char
  | 0, s => s
  | _ + 1, [] => []
  | fuel + 1, c :: rest =>
    if c = q then
      match afterQuote q rest with
      | some rest2 => '?' :: replaceQuoted q fuel rest2
      | none => c :: rest
    else c :: replaceQuoted q fuel rest

/-- Length of the maximal digit run at the head, and the remainder. -/
def digitRun : List Char → Nat × List Char
  | [] => (0, [])
  | c :: rest =>
    if c.isDigit then
      let p := digitRun rest
      (p.1 + 1, p.2)
    else (0, c :: rest)

/-- `\b` to the right of a character that is a word character: the next
character must be absent or not a word character. -/
def boundaryAfterWord : List Char → Bool
  | [] => true
  | c :: _ => !isWordChar c

/-- `re.sub(r"\b\d+\.?\d*\b", "?", s)`. The Boolean argument records whether
the previous character of the input is a word character (no `\b` can sit
between two word characters). The cases reproduce the backtracking of
`\d+\.?\d*` followed by `\b`: a maximal run of digits, optionally a dot,
optionally a second maximal run of digits, dropping first the second run and
then the dot when the final boundary fails. -/
def replaceNumbers : Nat → Bool → List Char → List Char
  | 0, _, s => s
  | _ + 1, _, [] => []
  | fuel + 1, prevWord, c :: rest =>
    if c.isDigit && !prevWord then
      let p1 := digitRun (c :: rest)
      match p1.2 with
      | '.' :: r2 =>
        let p2 := digitRun r2
        if p2.1 > 0 then
          if boundaryAfterWord p2.2 then
            '?' :: replaceNumbers fuel true p2.2
          else
            '?' :: replaceNumbers fuel false r2
        else
          match r2 with
          | c2 :: _ =>
            if isWordChar c2 then
              '?' :: replaceNumbers fuel false r2
            else
              '?' :: replaceNumbers fuel true ('.' :: r2)
          | [] => '?' :: replaceNumbers fuel true ('.' :: r2)
      | r1 =>
        if boundaryAfterWord r1 then
          '?' :: replaceNumbers fuel true r1
        else
          c :: replaceNumbers fuel (isWordChar c) rest
    else
      c :: replaceNumbers fuel (isWordChar c) rest

/-- Case-insensitive literal keyword match; the remainder on success. -/
def matchKeywordCI : List Char → List Char → Option (List Char)
  | [], s => some s
  | _ :: _, [] => none
  | k :: ks, c :: cs => if c.toLower = k then matchKeywordCI ks cs else none

/-- Regex `\s*`: skip whitespace greedily. -/
def skipSpaces : List Char → List Char
  | [] => []
  | c :: rest => if isPySpace c then skipSpaces rest else c :: rest

/-- After an opening parenthesis, `[^)]+\)`: at least one non-`)` character and
then the nearest `)`; the remainder on success. -/
def afterParenArg : List Char → Option (List Char)
  | [] => none
  | ')' :: _ => none
  | _ :: rest => afterBlockCloseParen rest
where
  afterBlockCloseParen : List Char → Option (List Char)
    | [] => none
    | ')' :: r => some r
    | _ :: r => afterBlockCloseParen r

/-- `re.sub(kw + r"\s*\([^)]+\)", repl, s, flags=re.IGNORECASE)` for a literal
keyword `kw` (given lowercase). -/
def replaceFnCall (kw repl : List Char) : Nat → List Char → List Char
  | 0, s => s
  | _ + 1, [] => []
  | fuel + 1, c :: rest =>
    match matchKeywordCI kw (c :: rest) with
    | some afterKw =>
      match skipSpaces afterKw with
      | '(' :: inner =>
        match afterParenArg inner with
        | some rest2 => repl ++ replaceFnCall kw repl fuel rest2
        | none => c :: replaceFnCall kw repl fuel rest
      | _ => c :: replaceFnCall kw repl fuel rest
    | none => c :: replaceFnCall kw repl fuel rest

/-- Python `str.strip()` (ASCII whitespace). -/
def stripEnds (s : List Char) : List Char :=
  ((s.dropWhile isPySpace).reverse.dropWhile isPySpace).reverse

/-- `normalize_sql_pattern` (backend_api/main_firestore.py lines 166-189);
`if not sql: return ""` is the empty-string guard. -/
def normalize_sql_pattern (sql : String) : String :=
  if sql = "" then ""
  else
    let s1 := stripLineComments (sql.data.length + 1) sql.data
    let s2 := stripBlockComments (s1.length + 1) s1
    let s3 := collapseWs s2
    let s4 := replaceQuoted '\'' (s3.length + 1) s3
    let s5 := replaceQuoted '"' (s4.length + 1) s4
    let s6 := replaceNumbers (s5.length + 1) false s5
    let s7 := replaceFnCall "date".data "DATE(?)".data (s6.length + 1) s6
    let s8 := replaceFnCall "timestamp".data "TIMESTAMP(?)".data (s7.length + 1) s7
    String.mk (stripEnds (s8.map Char.toUpper))

example : normalize_sql_pattern "" = "" := by decide
example : normalize_sql_pattern "SELECT * FROM t WHERE id = 5" = "SELECT * FROM T WHERE ID = ?" := by decide
example : normalize_sql_pattern "select   1  -- c\nfrom t /* z */ where x='q'" = "SELECT ? FROM T WHERE X=?" := by decide
example : normalize_sql_pattern "DATE ( 'a', 3 )" = "DATE(?)" := by decide
example : normalize_sql_pattern "TIMESTAMP(DATE(x))" = "TIMESTAMP(?))" := by decide
example : normalize_sql_pattern "1.2x" = "?2X" := by decide
example : normalize_sql_pattern "1..2" = "?..?" := by decide
example : normalize_sql_pattern "x.5" = "X.?" := by decide
example : normalize_sql_pattern "12x" = "12X" := by decide
example : normalize_sql_pattern "'a'b'c'd" = "?B?D" := by decide
example : normalize_sql_pattern "a'b" = "A'B" := by decide
example : normalize_sql_pattern "DATE()" = "DATE()" := by decide
example : normalize_sql_pattern "-/*x*/-" = "--" := by decide
example : normalize_sql_pattern "--" = "" := by decide
example : normalize_sql_pattern "a-/*x*/-b" = "A--B" := by decide
example : normalize_sql_pattern "A--B" = "A" := by decide

/-! ## MD5 (`hashlib.md5(content.encode()).hexdigest()`)

`str.encode()` is UTF-8; MD5 per RFC 1321, little-endian words, with the
standard sine-derived constant table and per-round shift amounts. Machine
words are `Nat` reduced `% 2 ^ 32`. -/

/-- UTF-8 encoding of one code point (Python `str.encode()`). -/
def utf8EncodeChar (c : Char) : List Nat :=
  let n := c.toNat
  if n < 0x80 then [n]
  else if n < 0x800 then [0xc0 + n / 0x40, 0x80 + n % 0x40]
  else if n < 0x10000 then
    [0xe0 + n / 0x1000, 0x80 + n / 0x40 % 0x40, 0x80 + n % 0x40]
  else
    [0xf0 + n / 0x40000, 0x80 + n / 0x1000 % 0x40, 0x80 + n / 0x40 % 0x40,
      0x80 + n % 0x40]

/-- The bytes of `s.encode()`. -/
def utf8Bytes (s : String) : List Nat :=
  (s.data.map utf8EncodeChar).flatten

/-- MD5 constant table `K[i] = floor(2^32 * abs(sin(i + 1)))`. -/
def md5K : List Nat :=
  [0xd76aa478, 0xe8c7b756, 0x242070db, 0xc1bdceee, 0xf57c0faf, 0x4787c62a,
   0xa8304613, 0xfd469501, 0x698098d8, 0x8b44f7af, 0xffff5bb1, 0x895cd7be,
   0x6b901122, 0xfd987193, 0xa679438e, 0x49b40821, 0xf61e2562, 0xc040b340,
   0x265e5a51, 0xe9b6c7aa, 0xd62f105d, 0x02441453, 0xd8a1e681, 0xe7d3fbc8,
   0x21e1cde6, 0xc33707d6, 0xf4d50d87, 0x455a14ed, 0xa9e3e905, 0xfcefa3f8,
   0x676f02d9, 0x8d2a4c8a, 0xfffa3942, 0x8771f681, 0x6d9d6122, 0xfde5380c,
   0xa4beea44, 0x4bdecfa9, 0xf6bb4b60, 0xbebfbc70, 0x289b7ec6, 0xeaa127fa,
   0xd4ef3085, 0x04881d05, 0xd9d4d039, 0xe6db99e5, 0x1fa27cf8, 0xc4ac5665,
   0xf4292244, 0x432aff97, 0xab9423a7, 0xfc93a039, 0x655b59c3, 0x8f0ccc92,
   0xffeff47d, 0x85845dd1, 0x6fa87e4f, 0xfe2ce6e0, 0xa3014314, 0x4e0811a1,
   0xf7537e82, 0xbd3af235, 0x2ad7d2bb, 0xeb86d391]

/-- MD5 per-round left-rotation amounts. -/
def md5S : List Nat :=
  [7, 12, 17, 22, 7, 12, 17, 22, 7, 12, 17, 22, 7, 12, 17, 22,
   5, 9, 14, 20, 5, 9, 14, 20, 5, 9, 14, 20, 5, 9, 14, 20,
   4, 11, 16, 23, 4, 11, 16, 23, 4, 11, 16, 23, 4, 11, 16, 23,
   6, 10, 15, 21, 6, 10, 15, 21, 6, 10, 15, 21, 6, 10, 15, 21]

/-- 32-bit left rotation (for `0 < s < 32` and `x < 2 ^ 32`). -/
def rotl32 (x s : Nat) : Nat :=
  (x * 2 ^ s + x / 2 ^ (32 - s)) % 2 ^ 32

/-- 32-bit bitwise complement. -/
def mnot32 (x : Nat) : Nat := 2 ^ 32 - 1 - x

/-- The MD5 round function for round `i` (F, G, H, I by sixteens). -/
def md5F (i b c d : Nat) : Nat :=
  if i < 16 then Nat.lor (Nat.land b c) (Nat.land (mnot32 b) d)
  else if i < 32 then Nat.lor (Nat.land d b) (Nat.land (mnot32 d) c)
  else if i < 48 then Nat.xor b (Nat.xor c d)
  else Nat.xor c (Nat.lor b (mnot32 d))

/-- The MD5 message-word index for round `i`. -/
def md5G (i : Nat) : Nat :=
  if i < 16 then i
  else if i < 32 then (5 * i + 1) % 16
  else if i < 48 then (3 * i + 5) % 16
  else 7 * i % 16

/-- One MD5 round over the 16-word block `m`. -/
def md5Step (m : List Nat) (st : Nat × Nat × Nat × Nat) (i : Nat) :
    Nat × Nat × Nat × Nat :=
  match st with
  | (a, b, c, d) =>
    let f := (md5F i b c d + a + md5K.getD i 0 + m.getD (md5G i) 0) % 2 ^ 32
    (d, (b + rotl32 f (md5S.getD i 0)) % 2 ^ 32, b, c)

/-- One 512-bit MD5 block: 64 rounds, then add into the running state. -/
def md5Block (st : Nat × Nat × Nat × Nat) (m : List Nat) :
    Nat × Nat × Nat × Nat :=
  match st, (List.range 64).foldl (md5Step m) st with
  | (a, b, c, d), (a', b', c', d') =>
    ((a + a') % 2 ^ 32, (b + b') % 2 ^ 32, (c + c') % 2 ^ 32, (d + d') % 2 ^ 32)

/-- MD5 padding: `0x80`, zeros to 56 mod 64, 8-byte little-endian bit length. -/
def md5Pad (msg : List Nat) : List Nat :=
  let n := msg.length
  msg ++ 0x80 :: List.replicate ((119 - n % 64) % 64) 0
    ++ (List.range 8).map (fun i => 8 * n % 2 ^ 64 / 2 ^ (8 * i) % 256)

/-- Little-endian 32-bit words from a byte list of length divisible by 4. -/
def leWords : List Nat → List Nat
  | b0 :: b1 :: b2 :: b3 :: rest =>
    (b0 + 256 * b1 + 65536 * b2 + 16777216 * b3) :: leWords rest
  | _ => []

/-- Split a word list into 16-word blocks (fuel bounds the block count). -/
def chunk16 : Nat → List Nat → List (List Nat)
  | 0, _ => []
  | _ + 1, [] => []
  | fuel + 1, ws => ws.take 16 :: chunk16 fuel (ws.drop 16)

/-- The four bytes of a 32-bit word, little-endian. -/
def leBytes4 (x : Nat) : List Nat :=
  [x % 256, x / 256 % 256, x / 65536 % 256, x / 16777216 % 256]

/-- The 16 digest bytes of the MD5 of a byte list. -/
def md5Digest (msg : List Nat) : List Nat :=
  let ws := leWords (md5Pad msg)
  match chunk16 (ws.length + 1) ws |>.foldl md5Block
      (0x67452301, 0xefcdab89, 0x98badcfe, 0x10325476) with
  | (a, b, c, d) => leBytes4 a ++ leBytes4 b ++ leBytes4 c ++ leBytes4 d

/-- Lowercase hexadecimal digit. -/
def hexDigitChar (n : Nat) : Char :=
  if n < 10 then Char.ofNat (48 + n) else Char.ofNat (87 + n)

/-- `hashlib.md5(bytes).hexdigest()`. -/
def md5Hexdigest (msg : List Nat) : String :=
  String.mk (((md5Digest msg).map fun b => [hexDigitChar (b / 16), hexDigitChar (b % 16)]).flatten)

/-- `hash_pattern` (backend_api/main_firestore.py lines 191-193):
`hashlib.md5(pattern.encode()).hexdigest()`. -/
def hash_pattern (pattern : String) : String :=
  md5Hexdigest (utf8Bytes pattern)

example : hash_pattern "" = "d41d8cd98f00b204e9800998ecf8427e" := by decide
example : hash_pattern "abc" = "900150983cd24fb0d6963f7d28e17f72" := by decide
example : hash_pattern "SELECT A FROM T" = "fbac74313694ae7d11f0bddb043acc59" := by decide

/-! ## `extract_tables_from_query` (backend_api/main_firestore.py lines 195-218)

```python
def extract_tables_from_query(query_text: str, referenced_tables: str) -> List[str]:
    tables = []
    if referenced_tables:
        try:
            refs = json.loads(referenced_tables)
            for ref in refs:
                if 'project_id' in ref and 'dataset_id' in ref and 'table_id' in ref:
                    tables.append(f"/.../")             # dataset_id.table_id
                elif 'dataset_id' in ref and 'table_id' in ref:
                    tables.append(f"/.../")             # dataset_id.table_id
        except:
            pass
    if not tables and query_text:
        pattern = r'FROM\s+`?([a-zA-Z0-9_-]+)\.([a-zA-Z0-9_-]+)\.([a-zA-Z0-9_-]+)`?'
        matches = re.findall(pattern, query_text, re.IGNORECASE)
        for match in matches:
            tables.append(f"/.../")                     # match[1].match[2]
    return list(set(tables))
```

The `referenced_tables` argument is a JSON string; it is modelled already
parsed, with `none` standing for an empty/null/unparseable value (all of which
leave `tables` empty in the source). `list(set(...))` returns the elements in
an unspecified order; it is modelled by `List.dedup`, which keeps first
occurrences — the claims below depend only on membership and duplicate
freedom, never on the order. -/

/-- One entry of the parsed `referenced_tables` JSON array. -/
structure TableRef where
  project_id : Option String
  dataset_id : Option String
  table_id : Option String

/-- The names contributed by the structured `referenced_tables` branch: both
the `project_id`-bearing branch and the other one append
`f"{ref['dataset_id']}.{ref['table_id']}"` (the project id is never used). -/
def refTableNames (refs : List TableRef) : List String :=
  refs.filterMap fun ref =>
    match ref.dataset_id, ref.table_id with
    | some d, some t => some (d ++ "." ++ t)
    | _, _ => none

/-- Regex character class `[a-zA-Z0-9_-]`. -/
def isNamePart (c : Char) : Bool :=
  c.isAlpha || c.isDigit || c = '_' || c = '-'

/-- Maximal run of `[a-zA-Z0-9_-]` characters and the remainder. -/
def namePartRun : List Char → List Char × List Char
  | [] => ([], [])
  | c :: rest =>
    if isNamePart c then
      let p := namePartRun rest
      (c :: p.1, p.2)
    else ([], c :: rest)

/-- After `FROM`: `\s+` then `` `? `` then three dot-separated
`[a-zA-Z0-9_-]+` groups then `` `? ``; yields the second and third group and
the remainder (the position `re.findall` continues from). -/
def matchFromTail (s : List Char) : Option (String × String × List Char) :=
  match s with
  | c :: rest =>
    if isPySpace c then
      let s1 := skipSpaces rest
      let s2 := match s1 with
        | '`' :: r => r
        | _ => s1
      let p1 := namePartRun s2
      if p1.1.isEmpty then none else
      match p1.2 with
      | '.' :: r2 =>
        let p2 := namePartRun r2
        if p2.1.isEmpty then none else
        match p2.2 with
        | '.' :: r3 =>
          let p3 := namePartRun r3
          if p3.1.isEmpty then none else
          let r4 := match p3.2 with
            | '`' :: r => r
            | _ => p3.2
          some (String.mk p2.1, String.mk p3.1, r4)
        | _ => none
      | _ => none
    else none
  | [] => none

/-- `re.findall` for the `FROM`-table pattern: every match contributes
`dataset.table` (groups 2 and 3); there is no `JOIN` alternative in the
source pattern. -/
def findFromTables : Nat → List Char → List String
  | 0, _ => []
  | _ + 1, [] => []
  | fuel + 1, s@(_ :: rest) =>
    match matchKeywordCI "from".data s with
    | some afterKw =>
      match matchFromTail afterKw with
      | some (d, t, rest2) => (d ++ "." ++ t) :: findFromTables fuel rest2
      | none => findFromTables fuel rest
    | none => findFromTables fuel rest

/-- `extract_tables_from_query` (backend_api/main_firestore.py lines 195-218). -/
def extract_tables_from_query (query_text : String)
    (referenced_tables : Option (List TableRef)) : List String :=
  let tables := match referenced_tables with
    | some refs => refTableNames refs
    | none => []
  let tables := if tables.isEmpty && query_text ≠ "" then
      findFromTables (query_text.data.length + 1) query_text.data
    else tables
  tables.dedup

example : extract_tables_from_query "SELECT * FROM a.b.c JOIN d.e.f ON x" none = ["b.c"] := by decide
example : extract_tables_from_query "select x from p.d.t join q.e.u" none = ["d.t"] := by decide
example : extract_tables_from_query "FROM `p.d.t` where" none = ["d.t"] := by decide
example : extract_tables_from_query "XFROM a.b.c" none = ["b.c"] := by decide
example : extract_tables_from_query "FROM a.b" none = [] := by decide
example : extract_tables_from_query "SELECT 1"
    (some [⟨none, some "d", some "t"⟩, ⟨none, some "d", some "t"⟩]) = ["d.t"] := by decide
example : extract_tables_from_query ""
    (some [⟨some "p", some "d", some "t"⟩]) = ["d.t"] := by decide

/-! ## `scan_project` (backend_api/main_firestore.py lines 242-400)

The endpoint first runs a SQL query over
`INFORMATION_SCHEMA.JOBS_BY_PROJECT`; its `WHERE` clause (lines 266-273) is

```sql
WHERE creation_time >= TIMESTAMP_SUB(CURRENT_TIMESTAMP(), INTERVAL n DAY)
  AND statement_type IN ('SELECT', 'INSERT', 'UPDATE', 'DELETE', 'MERGE')
  AND error_result IS NULL
  AND query IS NOT NULL
  AND total_bytes_processed > 0
```

The creation-time window delimits the externally supplied record set (the
scan's input), so the rows fed to the model are all within the window and
`creation_time` is never null; the remaining conjuncts are the row filter
`scanFilter` below (a SQL comparison against `NULL` is not true, so a null
`total_bytes_processed` is excluded). The Python loop then groups the
filtered rows by the MD5 of the normalized query pattern and computes
per-template statistics. Display-only derived fields (`recent_runs`,
`runs_summary`, `labels`) play no part in any claim and are omitted. -/

/-- One row of the `INFORMATION_SCHEMA.JOBS_BY_PROJECT` query result.
Timestamps are ISO-8601 strings (Python compares them with string `<`/`>`,
modelled by the same lexicographic order on `String`). -/
structure JobRow where
  job_id : String
  query : Option String
  user_email : String
  creation_time : String
  start_time : Option String
  end_time : Option String
  total_bytes_processed : Option Int
  total_bytes_billed : Option Int
  total_slot_ms : Option Int
  runtime_seconds : Option Int
  error_result : Option String
  statement_type : String
  referenced_tables : Option (List TableRef)

/-- The non-temporal conjuncts of the scan query's `WHERE` clause. -/
def scanFilter (r : JobRow) : Bool :=
  (r.statement_type = "SELECT" || r.statement_type = "INSERT"
      || r.statement_type = "UPDATE" || r.statement_type = "DELETE"
      || r.statement_type = "MERGE")
    && r.error_result.isNone
    && r.query.isSome
    && (match r.total_bytes_processed with
        | some b => 0 < b
        | none => false)

/-- Python `x or y or 0` over optional integers (`None` and `0` are falsy). -/
def pyOrZero (x y : Option Int) : Int :=
  match x with
  | some a => if a ≠ 0 then a else
      match y with
      | some b => if b ≠ 0 then b else 0
      | none => 0
  | none =>
      match y with
      | some b => if b ≠ 0 then b else 0
      | none => 0

/-- The per-run cost assigned at line 313:
`((row.total_bytes_billed or row.total_bytes_processed or 0) / 1e12) * 5.00`.
The divisor is the decimal `1e12` and the price the literal `5.00`. The
Python computation is in binary floating point; the model is exact `Rat`
division, which agrees with the float result on whether the outcome equals a
given decimal constant for every byte count used below (the float result at
`2 ^ 40` bytes is `5.49755813888`, not `5.0`, exactly as in the model). -/
def scanRunCost (bytes_billed bytes_processed : Option Int) : ℚ :=
  (pyOrZero bytes_billed bytes_processed : ℚ) / 10 ^ 12 * 5

/-- The `run_data` dict built per row (lines 303-314). -/
structure RunData where
  job_id : String
  creation_time : String
  start_time : Option String
  end_time : Option String
  bytes_processed : Int
  bytes_billed : Int
  slot_ms : Int
  runtime_seconds : Int
  user_email : String
  estimated_cost : ℚ

/-- `run_data` from a row; `x or 0` agrees with `Option.getD 0` because both
send `None` and `0` to `0`. -/
def mkRunData (r : JobRow) : RunData where
  job_id := r.job_id
  creation_time := r.creation_time
  start_time := r.start_time
  end_time := r.end_time
  bytes_processed := r.total_bytes_processed.getD 0
  bytes_billed := r.total_bytes_billed.getD 0
  slot_ms := r.total_slot_ms.getD 0
  runtime_seconds := r.runtime_seconds.getD 0
  user_email := r.user_email
  estimated_cost := scanRunCost r.total_bytes_billed r.total_bytes_processed

/-- The accumulating template dict (lines 286-325), before statistics. -/
structure TemplateAcc where
  template_id : String
  template_hash : String
  project_id : String
  sql_pattern : String
  full_sql : String
  tables_used : List String
  runs : List RunData
  total_runs : Nat
  total_bytes_processed : Int
  first_seen : String
  last_seen : String
  state : String

/-- The grouping key of a row: `hash_pattern(normalize_sql_pattern(row.query))`
(`row.query` is non-null for every row that passes the filter). -/
def rowHash (r : JobRow) : String :=
  hash_pattern (normalize_sql_pattern (r.query.getD ""))

/-- A fresh template entry for a first row with its hash (lines 286-300). -/
def newTemplate (project_id : String) (r : JobRow) : TemplateAcc :=
  let pattern := normalize_sql_pattern (r.query.getD "")
  let h := hash_pattern pattern
  { template_id := "tmpl_" ++ h.take 8
    template_hash := h
    project_id := project_id
    sql_pattern := pattern.take 500
    full_sql := r.query.getD ""
    tables_used := extract_tables_from_query (r.query.getD "") r.referenced_tables
    runs := []
    total_runs := 0
    total_bytes_processed := 0
    first_seen := r.creation_time
    last_seen := r.creation_time
    state := "new" }

/-- Appending one row's run to a template entry (lines 302-325). -/
def addRun (t : TemplateAcc) (r : JobRow) : TemplateAcc :=
  { t with
    runs := t.runs ++ [mkRunData r]
    total_runs := t.total_runs + 1
    total_bytes_processed := t.total_bytes_processed + r.total_bytes_processed.getD 0
    last_seen := if t.last_seen < r.creation_time then r.creation_time else t.last_seen
    first_seen := if r.creation_time < t.first_seen then r.creation_time else t.first_seen }

/-- One loop iteration over the `templates` dict, keyed by pattern hash; the
dict preserves insertion order, modelled as an association list with new keys
appended at the end. -/
def insertRow (project_id : String) (acc : List (String × TemplateAcc)) (r : JobRow) :
    List (String × TemplateAcc) :=
  match acc with
  | [] => [(rowHash r, addRun (newTemplate project_id r) r)]
  | (k, t) :: rest =>
    if k = rowHash r then (k, addRun t r) :: rest
    else (k, t) :: insertRow project_id rest r

/-- The grouping loop (lines 279-325) over the filtered rows. -/
def groupRows (project_id : String) (rows : List JobRow) :
    List (String × TemplateAcc) :=
  (rows.filter scanFilter).foldl (insertRow project_id) []

/-- `bytes_values[len(bytes_values) // 2]`: the p50 index. -/
def p50Index (n : Nat) : Nat := n / 2

/-- `bytes_values[int(len(bytes_values) * 0.9)]`: the p90 index.
`int(n * 0.9)` in IEEE double equals `9 * n / 10` in integers for every
`n` up to the scan's 10000-row cap (checked exhaustively far beyond it):
when `9n/10` is an integer the float product is within half an ulp of it, and
otherwise its fractional part (a multiple of 1/10) dwarfs the rounding
error, so truncation agrees. -/
def p90Index (n : Nat) : Nat := 9 * n / 10

/-- `bytes_values[int(len(bytes_values) * 0.99)]`: the p99 index, exact as
`99 * n / 100` for the same reason. -/
def p99Index (n : Nat) : Nat := 99 * n / 100

/-- The per-template statistics computed at lines 328-361 (`runs` is deleted
at line 362 after `runs_summary` is taken; the display-only `recent_runs`
and `runs_summary` fields are not modelled). Fields assigned only under a
non-emptiness guard in the source are `Option`-valued. -/
structure TemplateStats where
  template_id : String
  template_hash : String
  project_id : String
  sql_pattern : String
  full_sql : String
  tables_used : List String
  total_runs : Nat
  total_bytes_processed : Int
  first_seen : String
  last_seen : String
  state : String
  p50_bytes_processed : Option Int
  p90_bytes_processed : Option Int
  p99_bytes_processed : Option Int
  avg_bytes_processed : Option ℚ
  p50_runtime_seconds : Option Int
  p90_runtime_seconds : Option Int
  avg_runtime_seconds : Option ℚ
  total_cost : Option ℚ
  avg_cost_per_run : Option ℚ
  estimated_monthly_cost : Option ℚ
  runs_per_day : ℚ

/-- The statistics block (lines 330-350). Python `sorted` on totally ordered
values is modelled by insertion sort (the ascending result is unique). Note
the bytes distribution gets p50/p90/p99 but the runtime distribution only
p50/p90, exactly as in the source. -/
def computeStats (analysis_window : Nat) (t : TemplateAcc) : TemplateStats :=
  let bytes_values := List.insertionSort (· ≤ ·) (t.runs.map RunData.bytes_processed)
  let runtime_values := List.insertionSort (· ≤ ·) (t.runs.map RunData.runtime_seconds)
  let cost_values := List.insertionSort (· ≤ ·) (t.runs.map RunData.estimated_cost)
  { template_id := t.template_id
    template_hash := t.template_hash
    project_id := t.project_id
    sql_pattern := t.sql_pattern
    full_sql := t.full_sql
    tables_used := t.tables_used
    total_runs := t.total_runs
    total_bytes_processed := t.total_bytes_processed
    first_seen := t.first_seen
    last_seen := t.last_seen
    state := t.state
    p50_bytes_processed :=
      if bytes_values.isEmpty then none
      else some (bytes_values.getD (p50Index bytes_values.length) 0)
    p90_bytes_processed :=
      if bytes_values.isEmpty then none
      else some (bytes_values.getD (p90Index bytes_values.length) 0)
    p99_bytes_processed :=
      if bytes_values.isEmpty then none
      else some (bytes_values.getD (p99Index bytes_values.length) 0)
    avg_bytes_processed :=
      if bytes_values.isEmpty then none
      else some ((bytes_values.sum : ℚ) / bytes_values.length)
    p50_runtime_seconds :=
      if runtime_values.isEmpty then none
      else some (runtime_values.getD (p50Index runtime_values.length) 0)
    p90_runtime_seconds :=
      if runtime_values.isEmpty then none
      else some (runtime_values.getD (p90Index runtime_values.length) 0)
    avg_runtime_seconds :=
      if runtime_values.isEmpty then none
      else some ((runtime_values.sum : ℚ) / runtime_values.length)
    total_cost := if cost_values.isEmpty then none else some cost_values.sum
    avg_cost_per_run :=
      if cost_values.isEmpty then none
      else some (cost_values.sum / cost_values.length)
    estimated_monthly_cost :=
      if cost_values.isEmpty then none
      else some (cost_values.sum / analysis_window * 30)
    runs_per_day := (t.total_runs : ℚ) / analysis_window }

/-- The in-memory part of the `scan_project` endpoint: filter (the SQL
`WHERE`), group by pattern hash, aggregate per template. -/
def scan_project (project_id : String) (analysis_window : Nat)
    (rows : List JobRow) : List TemplateStats :=
  (groupRows project_id rows).map fun kt => computeStats analysis_window kt.2

/-! ## `scan_project_with_information_schema`
(backend_api/information_schema_scanner.py lines 125-317)

The scan is a single BigQuery SQL statement (lines 164-257) over
`INFORMATION_SCHEMA.JOBS`; this is code of the repository shipped as a query
string, embedded here as list processing over its input rows. Its
`query_metrics` CTE filters

```sql
WHERE DATE(creation_time) BETWEEN start AND end
  AND statement_type = 'SELECT'
  AND error_result IS NULL
  AND total_bytes_billed > 0
```

(the date window again scopes the input set) and assigns
`(total_bytes_billed / POW(2, 40)) * price_per_tb` as `estimated_cost_usd`.
`query_template_aggregates` groups by BigQuery's
`query_info.query_hashes.normalized_literals` (rows with a null hash are
dropped by its `WHERE query_hash IS NOT NULL`), `impactful_templates` adds
the cache-hit rate, the priority `CASE`, and `impact_score`, and the final
select keeps only `CRITICAL`/`HIGH`/`MEDIUM` templates ordered by total cost
descending, `LIMIT 200`. `impact_score` (`total_cost * LN(count + 1)`,
transcendental), `STDDEV`, the display-only byte/slot unit conversions and
the `ARRAY_AGG` columns are not needed by any claim and are omitted. -/

/-- One row visible to the scanner's SQL (the referenced columns). -/
structure IsJob where
  query_hash : Option String
  job_id : String
  user_email : String
  creation_time : String
  query : String
  total_bytes_billed : Option Int
  total_slot_ms : Option Int
  total_bytes_processed : Option Int
  cache_hit : Bool
  duration_seconds : Int
  error_present : Bool
  statement_type : String

/-- The non-temporal conjuncts of the `query_metrics` `WHERE` clause. -/
def infoSchemaFilter (r : IsJob) : Bool :=
  r.statement_type = "SELECT"
    && !r.error_present
    && (match r.total_bytes_billed with
        | some b => 0 < b
        | none => false)

/-- `(total_bytes_billed / POW(2, 40)) * price_per_tb` (line 178): the
binary-TB convention with the caller-supplied price (FastAPI default 5.0).
BigQuery computes this in FLOAT64; at `total_bytes_billed = 2 ^ 40` the
division is exactly 1.0 there as it is here. -/
def infoSchemaCost (price_per_tb : ℚ) (r : IsJob) : ℚ :=
  (r.total_bytes_billed.getD 0 : ℚ) / 2 ^ 40 * price_per_tb

/-- SQL `ROUND(x, 1)` (half away from zero) for the non-negative arguments
arising here. -/
def sqlRound1 (x : ℚ) : ℚ :=
  (⌊10 * x + 1 / 2⌋ : ℚ) / 10

/-- The priority `CASE` expression (lines 220-225), first match wins:

```sql
CASE
  WHEN total_cost_usd > 100 OR (execution_count > 500 AND avg_cost_usd > 1) THEN 'CRITICAL'
  WHEN total_cost_usd > 50 OR (execution_count > 100 AND avg_cost_usd > 0.5) THEN 'HIGH'
  WHEN total_cost_usd > 10 OR (execution_count > 50 AND avg_cost_usd > 0.1) THEN 'MEDIUM'
  ELSE 'LOW'
END
``` -/
def priorityLevel (total_cost_usd : ℚ) (execution_count : Nat) (avg_cost_usd : ℚ) : String :=
  if total_cost_usd > 100 ∨ (execution_count > 500 ∧ avg_cost_usd > 1) then "CRITICAL"
  else if total_cost_usd > 50 ∨ (execution_count > 100 ∧ avg_cost_usd > 1 / 2) then "HIGH"
  else if total_cost_usd > 10 ∨ (execution_count > 50 ∧ avg_cost_usd > 1 / 10) then "MEDIUM"
  else "LOW"

/-- `GROUP BY query_hash` as an association list in first-appearance order
(SQL leaves the group order unspecified; only the final `ORDER BY` matters). -/
def insertByHash (acc : List (String × List IsJob)) (r : IsJob) :
    List (String × List IsJob) :=
  match acc with
  | [] => [(r.query_hash.getD "", [r])]
  | (k, g) :: rest =>
    if k = r.query_hash.getD "" then (k, g ++ [r]) :: rest
    else (k, g) :: insertByHash rest r

/-- One output row of `impactful_templates` (the modelled columns). -/
structure IsTemplateAgg where
  query_hash : String
  sample_query : String
  execution_count : Nat
  unique_users : Nat
  total_cost_usd : ℚ
  avg_cost_usd : ℚ
  max_cost_usd : ℚ
  min_cost_usd : ℚ
  cache_hits : Nat
  cache_hit_rate : ℚ
  priority_level : String

/-- The aggregate columns for one hash group (`ANY_VALUE(query)` is modelled
as the first row's query; groups are non-empty by construction). -/
def isAggOf (price_per_tb : ℚ) (kg : String × List IsJob) : IsTemplateAgg :=
  let costs := kg.2.map (infoSchemaCost price_per_tb)
  let n := kg.2.length
  let total := costs.sum
  let avg := total / n
  let hits := (kg.2.filter IsJob.cache_hit).length
  { query_hash := kg.1
    sample_query := ((kg.2.map IsJob.query).headD "")
    execution_count := n
    unique_users := ((kg.2.map IsJob.user_email).dedup).length
    total_cost_usd := total
    avg_cost_usd := avg
    max_cost_usd := costs.max?.getD 0
    min_cost_usd := costs.min?.getD 0
    cache_hits := hits
    cache_hit_rate := sqlRound1 ((hits : ℚ) * 100 / n)
    priority_level := priorityLevel total n avg }

/-- The full scanner pipeline: metrics filter, group by hash, aggregate,
keep `CRITICAL`/`HIGH`/`MEDIUM`, order by total cost descending, `LIMIT 200`. -/
def scan_with_information_schema (price_per_tb : ℚ) (rows : List IsJob) :
    List IsTemplateAgg :=
  let metrics := rows.filter infoSchemaFilter
  let groups := (metrics.filter fun r => r.query_hash.isSome).foldl insertByHash []
  let aggs := groups.map (isAggOf price_per_tb)
  let kept := aggs.filter fun a =>
    a.priority_level = "CRITICAL" || a.priority_level = "HIGH"
      || a.priority_level = "MEDIUM"
  (List.insertionSort (fun a b => b.total_cost_usd ≤ a.total_cost_usd) kept).take 200

/-! ## The Firestore template store (backend_api/firestore_templates.py)

`TemplateFirestoreManager._generate_template_id` (lines 19-22) keys a stored
document by `md5(f"{project_id}:{sql_pattern}")`;
`batch_save_templates` (lines 168-200) computes that id from the incoming
dict's `sqlSnippet` (falling back to `sql_pattern`, then `""`; the scan
endpoint always supplies `sqlSnippet`), and when a document with that id
already exists copies `analysis_result_id`, `analysis_status` (default
`'new'`), `compliance_score` and `created_at` from the existing document into
the incoming data before writing it with `set(..., merge=True)`; a new
document instead gets `analysis_status = 'new'` and `created_at = now`. -/

/-- `_generate_template_id(project_id, sql_pattern)`. -/
def generate_template_id (project_id sql_pattern : String) : String :=
  md5Hexdigest (utf8Bytes (project_id ++ ":" ++ sql_pattern))

/-- The document id under which `scan_project` stores the template of the raw
query `sql`: `batch_save_templates` hashes the incoming dict's `sqlSnippet`,
which `scan_project` (lines 370-372) sets to `template['sql_pattern']`, the
normalized pattern truncated to its first 500 characters (line 291). -/
def storedTemplateDocId (project_id sql : String) : String :=
  generate_template_id project_id ((normalize_sql_pattern sql).take 500)

/-- The incoming `firestore_template` dict built in `scan_project`
(lines 371-387); it carries no analysis fields. -/
structure FsIncoming where
  sqlSnippet : String
  fullSql : String
  tables : List String
  runs : Nat
  avgBytesProcessed : ℚ
  bytesProcessedP90 : Int
  avgRuntime : ℚ
  runtimeP50 : Int
  avgCostPerRun : ℚ
  totalCost : ℚ
  estimatedMonthlyCost : ℚ
  runsPerDay : ℚ
  firstSeen : Option String
  lastSeen : Option String

/-- A stored template document (the modelled fields: the incoming statistics
plus the analysis annotations and bookkeeping). `Option` marks fields a
document may lack (`dict.get` returns `None`). -/
structure FsStored where
  sqlSnippet : String
  fullSql : String
  tables : List String
  runs : Nat
  avgBytesProcessed : ℚ
  bytesProcessedP90 : Int
  avgRuntime : ℚ
  runtimeP50 : Int
  avgCostPerRun : ℚ
  totalCost : ℚ
  estimatedMonthlyCost : ℚ
  runsPerDay : ℚ
  firstSeen : Option String
  lastSeen : Option String
  analysis_result_id : Option String
  analysis_status : Option String
  compliance_score : Option ℚ
  created_at : Option String
  project_id : String
  template_id : String
  last_updated : String

/-- One iteration of `batch_save_templates` (lines 173-197) for one incoming
template: the document that ends up stored under the computed id, given the
previously stored document under that id (if any). `set(..., merge=True)`
overwrites every field present in `template_data`, which after the
copy-back step includes all the fields modelled here. -/
def batch_save_one (project_id : String) (existing : Option FsStored)
    (inc : FsIncoming) (now : String) : FsStored :=
  let tid := generate_template_id project_id inc.sqlSnippet
  { sqlSnippet := inc.sqlSnippet
    fullSql := inc.fullSql
    tables := inc.tables
    runs := inc.runs
    avgBytesProcessed := inc.avgBytesProcessed
    bytesProcessedP90 := inc.bytesProcessedP90
    avgRuntime := inc.avgRuntime
    runtimeP50 := inc.runtimeP50
    avgCostPerRun := inc.avgCostPerRun
    totalCost := inc.totalCost
    estimatedMonthlyCost := inc.estimatedMonthlyCost
    runsPerDay := inc.runsPerDay
    firstSeen := inc.firstSeen
    lastSeen := inc.lastSeen
    analysis_result_id :=
      match existing with
      | some ex => ex.analysis_result_id
      | none => none
    analysis_status :=
      match existing with
      | some ex => some (ex.analysis_status.getD "new")
      | none => some "new"
    compliance_score :=
      match existing with
      | some ex => ex.compliance_score
      | none => none
    created_at :=
      match existing with
      | some ex => ex.created_at
      | none => some now
    project_id := project_id
    template_id := tid
    last_updated := now }

/-! ## Concrete inputs used by the claims -/

/-- A scan row with everything needed filled in and no error. -/
def sampleRow (q stmt : String) (bytes billed : Option Int) : JobRow where
  job_id := "job1"
  query := some q
  user_email := "u@example.com"
  creation_time := "2025-01-01T00:00:00+00:00"
  start_time := none
  end_time := none
  total_bytes_processed := bytes
  total_bytes_billed := billed
  total_slot_ms := some 0
  runtime_seconds := some 1
  error_result := none
  statement_type := stmt
  referenced_tables := none

/-- Five `SELECT` runs of one pattern with bytes 10, 20, 30, 40, 50. -/
def fiveByteRows : List JobRow :=
  [sampleRow "SELECT C FROM T" "SELECT" (some 10) (some 10),
   sampleRow "SELECT C FROM T" "SELECT" (some 20) (some 20),
   sampleRow "SELECT C FROM T" "SELECT" (some 30) (some 30),
   sampleRow "SELECT C FROM T" "SELECT" (some 40) (some 40),
   sampleRow "SELECT C FROM T" "SELECT" (some 50) (some 50)]

/-- An `INSERT` row with positive processed bytes and zero billed bytes. -/
def insertRow0 : JobRow :=
  sampleRow "INSERT INTO T VALUES(1)" "INSERT" (some 5) (some 0)

/-- The end-to-end scenario's three records: two of pattern A (bytes 1e9 and
3e9), one of pattern B (bytes 5e8). -/
def scenarioRows : List JobRow :=
  [sampleRow "SELECT A FROM T" "SELECT" (some 1000000000) (some 1000000000),
   sampleRow "SELECT A FROM T" "SELECT" (some 3000000000) (some 3000000000),
   sampleRow "SELECT B FROM T" "SELECT" (some 500000000) (some 500000000)]

/-- A scanner row with the given hash, billed bytes and cache-hit flag. -/
def sampleIsJob (h : String) (billed : Int) (ch : Bool) : IsJob where
  query_hash := some h
  job_id := "job1"
  user_email := "u@example.com"
  creation_time := "2025-01-01T00:00:00+00:00"
  query := "SELECT A FROM T"
  total_bytes_billed := some billed
  total_slot_ms := some 0
  total_bytes_processed := some billed
  cache_hit := ch
  duration_seconds := 1
  error_present := false
  statement_type := "SELECT"

/-- The scenario's three records as the information-schema scanner sees them. -/
def scenarioIsRows : List IsJob :=
  [sampleIsJob "A" 1000000000 false,
   sampleIsJob "A" 3000000000 false,
   sampleIsJob "B" 500000000 true]

/-- A scanner row billed exactly one binary terabyte. -/
def binaryTbIsJob : IsJob := sampleIsJob "A" (2 ^ 40) false

/-- The one template accumulated from `fiveByteRows` (checked below against
`groupRows`). -/
def fiveByteTemplate : TemplateAcc :=
  { newTemplate "p" (sampleRow "SELECT C FROM T" "SELECT" (some 10) (some 10)) with
    runs :=
      [mkRunData (sampleRow "SELECT C FROM T" "SELECT" (some 10) (some 10)),
       mkRunData (sampleRow "SELECT C FROM T" "SELECT" (some 20) (some 20)),
       mkRunData (sampleRow "SELECT C FROM T" "SELECT" (some 30) (some 30)),
       mkRunData (sampleRow "SELECT C FROM T" "SELECT" (some 40) (some 40)),
       mkRunData (sampleRow "SELECT C FROM T" "SELECT" (some 50) (some 50))]
    total_runs := 5
    total_bytes_processed := 150 }

example : (groupRows "p" fiveByteRows).map (fun kt => kt.2.total_runs) = [5] := by decide

/-- A non-empty list has `isEmpty = false`. -/
theorem isEmpty_eq_false_of_ne_nil {α : Type} {l : List α} (h : l ≠ []) :
    l.isEmpty = false := by
  cases l with
  | nil => exact absurd rfl h
  | cons a t => rfl

/-! ## Claims -/

/-- C1, counterexample. The claim says the aggregator selects index
`floor(p/100 * (n-1))`, so p90 of the 5-run distribution
`[10, 20, 30, 40, 50]` would be index 3, value 40. The code selects
`bytes_values[int(len * 0.9)]`, index 4, so scanning the five concrete runs
yields a template whose `p50_bytes_processed` is 30 but whose
`p90_bytes_processed` is 50, not 40. -/
theorem C1_percentile_counterexample :
    ((scan_project "p" 30 fiveByteRows).map fun t =>
        (t.p50_bytes_processed, t.p90_bytes_processed))
      = [(some 30, some 50)]
    ∧ some (50 : Int) ≠ some (40 : Int) := by
  constructor
  · decide
  · decide

/-- C1, amended: the aggregator sorts each metric ascending and selects index
`floor(n/2)` for p50, `int(n * 0.9) = floor(9n/10)` for p90 and
`int(n * 0.99) = floor(99n/100)` for p99 (indices computed from `n`, not
`n - 1`); bytes-processed gets p50/p90/p99 but runtime only p50/p90. -/
theorem C1_percentile_rule (w : Nat) (t : TemplateAcc) (h : t.runs ≠ []) :
    (computeStats w t).p50_bytes_processed
        = some ((List.insertionSort (· ≤ ·) (t.runs.map RunData.bytes_processed)).getD
            (p50Index t.runs.length) 0)
    ∧ (computeStats w t).p90_bytes_processed
        = some ((List.insertionSort (· ≤ ·) (t.runs.map RunData.bytes_processed)).getD
            (p90Index t.runs.length) 0)
    ∧ (computeStats w t).p99_bytes_processed
        = some ((List.insertionSort (· ≤ ·) (t.runs.map RunData.bytes_processed)).getD
            (p99Index t.runs.length) 0)
    ∧ (computeStats w t).p50_runtime_seconds
        = some ((List.insertionSort (· ≤ ·) (t.runs.map RunData.runtime_seconds)).getD
            (p50Index t.runs.length) 0)
    ∧ (computeStats w t).p90_runtime_seconds
        = some ((List.insertionSort (· ≤ ·) (t.runs.map RunData.runtime_seconds)).getD
            (p90Index t.runs.length) 0) := by
  have hb : (List.insertionSort (· ≤ ·) (t.runs.map RunData.bytes_processed)).length
      = t.runs.length := by
    rw [List.length_insertionSort, List.length_map]
  have hr : (List.insertionSort (· ≤ ·) (t.runs.map RunData.runtime_seconds)).length
      = t.runs.length := by
    rw [List.length_insertionSort, List.length_map]
  have hbe : (List.insertionSort (· ≤ ·) (t.runs.map RunData.bytes_processed)).isEmpty = false := by
    refine isEmpty_eq_false_of_ne_nil fun e => h (List.length_eq_zero.mp ?_)
    rw [← hb, e]
    rfl
  have hre : (List.insertionSort (· ≤ ·) (t.runs.map RunData.runtime_seconds)).isEmpty = false := by
    refine isEmpty_eq_false_of_ne_nil fun e => h (List.length_eq_zero.mp ?_)
    rw [← hr, e]
    rfl
  refine ⟨?_, ?_, ?_, ?_, ?_⟩ <;>
    simp [computeStats, hbe, hre, hb, hr]

/-- C1 witness: the rule applied to the template holding the five concrete
runs of `fiveByteRows` gives p50 = 30, p90 = 50, p99 = 50 for bytes. -/
theorem C1_percentile_rule_witness :
    (computeStats 30 fiveByteTemplate).p50_bytes_processed = some 30
    ∧ (computeStats 30 fiveByteTemplate).p90_bytes_processed = some 50
    ∧ (computeStats 30 fiveByteTemplate).p99_bytes_processed = some 50
    ∧ (computeStats 30 fiveByteTemplate).p50_runtime_seconds = some 1
    ∧ (computeStats 30 fiveByteTemplate).p90_runtime_seconds = some 1 :=
  C1_percentile_rule 30 fiveByteTemplate (by simp [fiveByteTemplate])

/-- C2, counterexample. `scan_project` (main_firestore.py line 313) divides by
the decimal `1e12` at the fixed literal price `5.00`, so a run billed exactly
`2 ^ 40` bytes is not priced `(2 ^ 40 / 2 ^ 40) * 5 = 5` dollars there but
`5.49755813888`. -/
theorem C2_cost_counterexample :
    (mkRunData (sampleRow "SELECT A FROM T" "SELECT" (some (2 ^ 40)) (some (2 ^ 40)))).estimated_cost
        = 5497558138880 / 10 ^ 12
    ∧ (mkRunData (sampleRow "SELECT A FROM T" "SELECT" (some (2 ^ 40)) (some (2 ^ 40)))).estimated_cost
        ≠ ((2 ^ 40 : ℚ) / 2 ^ 40) * 5 := by
  have hv : (mkRunData (sampleRow "SELECT A FROM T" "SELECT"
      (some (2 ^ 40)) (some (2 ^ 40)))).estimated_cost = 5497558138880 / 10 ^ 12 := by
    simp only [mkRunData, sampleRow, scanRunCost, pyOrZero]
    norm_num
  refine ⟨hv, ?_⟩
  rw [hv]
  norm_num

/-- C2, amended: the information-schema scanner prices a run
`(total_bytes_billed / 2 ^ 40) * price_per_tb` with the caller-supplied price
(binary-TB convention), so one binary terabyte billed costs exactly the price;
`scan_project`'s per-run cost instead uses the decimal divisor `1e12` and the
fixed price `5.00` applied to `bytes_billed or bytes_processed or 0`. -/
theorem C2_cost_formula (r : IsJob) (price_per_tb : ℚ)
    (h : r.total_bytes_billed = some (2 ^ 40)) :
    infoSchemaCost price_per_tb r = price_per_tb := by
  simp only [infoSchemaCost, h, Option.getD_some]
  have hc : ((2 ^ 40 : Int) : ℚ) = 2 ^ 40 := by norm_num
  rw [hc, div_self (by norm_num : ((2 : ℚ) ^ 40) ≠ 0), one_mul]

/-- C2 witness: one binary terabyte at `price_per_tb = 5.0` costs exactly 5. -/
theorem C2_cost_formula_witness : infoSchemaCost 5 binaryTbIsJob = 5 :=
  C2_cost_formula binaryTbIsJob 5 rfl

/-- C3: `batch_save_templates` over an existing document overwrites the
statistical fields with the incoming values but takes `analysis_result_id`,
`compliance_score` and `created_at` from the existing document, and
`analysis_status` from the existing document (defaulting to `new` only when
the existing document has none); in particular an existing `completed` status
survives the upsert, so a rescan never regresses `completed` to `new`. -/
theorem C3_merge_preserves_analysis (project_id now : String) (ex : FsStored)
    (inc : FsIncoming) :
    (batch_save_one project_id (some ex) inc now).analysis_result_id = ex.analysis_result_id
    ∧ (batch_save_one project_id (some ex) inc now).compliance_score = ex.compliance_score
    ∧ (batch_save_one project_id (some ex) inc now).created_at = ex.created_at
    ∧ (batch_save_one project_id (some ex) inc now).analysis_status
        = some (ex.analysis_status.getD "new")
    ∧ (ex.analysis_status = some "completed" →
        (batch_save_one project_id (some ex) inc now).analysis_status = some "completed")
    ∧ (batch_save_one project_id (some ex) inc now).runs = inc.runs
    ∧ (batch_save_one project_id (some ex) inc now).totalCost = inc.totalCost
    ∧ (batch_save_one project_id (some ex) inc now).avgCostPerRun = inc.avgCostPerRun
    ∧ (batch_save_one project_id (some ex) inc now).avgBytesProcessed = inc.avgBytesProcessed
    ∧ (batch_save_one project_id (some ex) inc now).bytesProcessedP90 = inc.bytesProcessedP90
    ∧ (batch_save_one project_id (some ex) inc now).runtimeP50 = inc.runtimeP50
    ∧ (batch_save_one project_id (some ex) inc now).lastSeen = inc.lastSeen := by
  refine ⟨rfl, rfl, rfl, rfl, ?_, rfl, rfl, rfl, rfl, rfl, rfl, rfl⟩
  intro hc
  simp [batch_save_one, hc]

/-- C3 witness: a stored document with `analysis_status = completed` and
compliance score 87 upserted with fresh statistics keeps both. -/
theorem C3_merge_preserves_analysis_witness :
    (batch_save_one "p"
        (some { sqlSnippet := "SELECT C FROM T", fullSql := "SELECT C FROM T"
                tables := [], runs := 1, avgBytesProcessed := 10
                bytesProcessedP90 := 10, avgRuntime := 1, runtimeP50 := 1
                avgCostPerRun := 0, totalCost := 0, estimatedMonthlyCost := 0
                runsPerDay := 0, firstSeen := none, lastSeen := none
                analysis_result_id := some "ar1", analysis_status := some "completed"
                compliance_score := some 87, created_at := some "2024-12-01T00:00:00"
                project_id := "p", template_id := "t", last_updated := "2024-12-01T00:00:00" })
        { sqlSnippet := "SELECT C FROM T", fullSql := "SELECT C FROM T"
          tables := [], runs := 7, avgBytesProcessed := 30
          bytesProcessedP90 := 50, avgRuntime := 1, runtimeP50 := 1
          avgCostPerRun := 0, totalCost := 0, estimatedMonthlyCost := 0
          runsPerDay := 0, firstSeen := none, lastSeen := none }
        "2025-01-01T00:00:00").analysis_status = some "completed" :=
  (C3_merge_preserves_analysis "p" "2025-01-01T00:00:00" _ _).2.2.2.2.1 rfl

/-- C4: the priority `CASE` is evaluated in order with first match winning and
strict comparisons; each tier holds exactly when its clause fires and no
earlier clause does, `total_cost = 100.01` is `CRITICAL`, and
`total_cost = 100.00` exactly does not satisfy the `CRITICAL` cost clause
(here it falls through to `HIGH` via `100 > 50`). -/
theorem C4_priority_classifier (tc : ℚ) (n : Nat) (ac : ℚ) :
    (priorityLevel tc n ac = "CRITICAL" ↔ tc > 100 ∨ (n > 500 ∧ ac > 1))
    ∧ (priorityLevel tc n ac = "HIGH" ↔
        ¬(tc > 100 ∨ (n > 500 ∧ ac > 1)) ∧ (tc > 50 ∨ (n > 100 ∧ ac > 1 / 2)))
    ∧ (priorityLevel tc n ac = "MEDIUM" ↔
        ¬(tc > 100 ∨ (n > 500 ∧ ac > 1)) ∧ ¬(tc > 50 ∨ (n > 100 ∧ ac > 1 / 2))
          ∧ (tc > 10 ∨ (n > 50 ∧ ac > 1 / 10)))
    ∧ (priorityLevel tc n ac = "LOW" ↔
        ¬(tc > 100 ∨ (n > 500 ∧ ac > 1)) ∧ ¬(tc > 50 ∨ (n > 100 ∧ ac > 1 / 2))
          ∧ ¬(tc > 10 ∨ (n > 50 ∧ ac > 1 / 10)))
    ∧ priorityLevel (10001 / 100) 0 0 = "CRITICAL"
    ∧ ¬((100 : ℚ) > 100)
    ∧ priorityLevel 100 0 0 = "HIGH" := by
  have c1 : priorityLevel (10001 / 100) 0 0 = "CRITICAL" := by
    unfold priorityLevel
    rw [if_pos (Or.inl (by norm_num))]
  have c2 : priorityLevel 100 0 0 = "HIGH" := by
    unfold priorityLevel
    rw [if_neg, if_pos (Or.inl (by norm_num))]
    rintro (hh | ⟨hh, _⟩)
    · exact absurd hh (by norm_num)
    · exact absurd hh (by omega)
  refine ⟨?_, ?_, ?_, ?_, c1, by norm_num, c2⟩ <;> unfold priorityLevel <;>
      split_ifs with h1 h2 h3
  · exact iff_of_true rfl h1
  · exact iff_of_false (by decide) h1
  · exact iff_of_false (by decide) h1
  · exact iff_of_false (by decide) h1
  · exact iff_of_false (by decide) fun hx => hx.1 h1
  · exact iff_of_true rfl ⟨h1, h2⟩
  · exact iff_of_false (by decide) fun hx => h2 hx.2
  · exact iff_of_false (by decide) fun hx => h2 hx.2
  · exact iff_of_false (by decide) fun hx => hx.1 h1
  · exact iff_of_false (by decide) fun hx => hx.2.1 h2
  · exact iff_of_true rfl ⟨h1, h2, h3⟩
  · exact iff_of_false (by decide) fun hx => h3 hx.2.2
  · exact iff_of_false (by decide) fun hx => hx.1 h1
  · exact iff_of_false (by decide) fun hx => hx.2.1 h2
  · exact iff_of_false (by decide) fun hx => hx.2.2 h3
  · exact iff_of_true rfl ⟨h1, h2, h3⟩

/-- C6: evaluating `normalize_sql_pattern` at the failing input consisting of
a dash, the block comment containing `x`, and a dash: the block-comment pass
deletes the comment and glues the surrounding dashes into `--`, which only
the next application's line-comment pass strips, so normalizing twice
differs from normalizing once and the documented idempotence fails. -/
theorem C6_normalize_not_idempotent :
    normalize_sql_pattern "-/*x*/-" = "--"
    ∧ normalize_sql_pattern "--" = ""
    ∧ normalize_sql_pattern (normalize_sql_pattern "-/*x*/-")
        ≠ normalize_sql_pattern "-/*x*/-" := by
  refine ⟨by decide, by decide, by decide⟩

/-- C8, counterexample. The fallback regex scans only
`FROM project.dataset.table`; a table reached through `JOIN` is not
extracted, and an entry of `referenced_tables` carrying a project id still
contributes `dataset.table`, not `project.dataset.table`. -/
theorem C8_tables_counterexample :
    extract_tables_from_query "SELECT * FROM a.b.c JOIN d.e.f ON x" none = ["b.c"]
    ∧ ("e.f" : String) ∉ extract_tables_from_query "SELECT * FROM a.b.c JOIN d.e.f ON x" none
    ∧ extract_tables_from_query "" (some [⟨some "p", some "d", some "t"⟩]) = ["d.t"]
    ∧ ("p.d.t" : String) ∉ extract_tables_from_query "" (some [⟨some "p", some "d", some "t"⟩]) := by
  refine ⟨by decide, by decide, by decide, by decide⟩

/-- C8, amended: table extraction prefers the structured `referenced_tables`
when it yields at least one name (each entry contributing `dataset.table`;
the project component is never included), only otherwise falls back to a
regex scan of the SQL text for fully qualified `FROM project.dataset.table`
references (`JOIN` clauses are not scanned), and the returned list carries no
duplicates. -/
theorem C8_tables_extraction :
    (∀ (q : String) (refs : Option (List TableRef)),
        (extract_tables_from_query q refs).Nodup)
    ∧ (∀ (q q' : String) (refs : List TableRef), refTableNames refs ≠ [] →
        extract_tables_from_query q (some refs) = extract_tables_from_query q' (some refs))
    ∧ extract_tables_from_query "select x from p.d.t join q.e.u" none = ["d.t"] := by
  refine ⟨?_, ?_, by decide⟩
  · intro q refs
    exact List.nodup_dedup _
  · intro q q' refs h
    simp [extract_tables_from_query, List.isEmpty_iff, h]

/-! ## Properties of the grouping fold -/

/-- First-match association lookup in the accumulated template map. -/
def lookupAcc (k : String) : List (String × TemplateAcc) → Option TemplateAcc
  | [] => none
  | (k0, t) :: rest => if k0 = k then some t else lookupAcc k rest

theorem lookupAcc_insertRow (pid : String) (r : JobRow) (acc : List (String × TemplateAcc))
    (k : String) :
    lookupAcc k (insertRow pid acc r)
      = if k = rowHash r then
          some (addRun ((lookupAcc k acc).getD (newTemplate pid r)) r)
        else lookupAcc k acc := by
  induction acc with
  | nil =>
    simp only [insertRow]
    by_cases h : k = rowHash r
    · simp [lookupAcc, h]
    · simp [lookupAcc, h, Ne.symm h]
  | cons head rest ih =>
    obtain ⟨k0, t0⟩ := head
    by_cases h0 : k0 = rowHash r
    · by_cases hk : k = rowHash r
      · simp [insertRow, lookupAcc, h0, hk]
      · have hk0 : ¬(k0 = k) := fun e => hk (e.symm.trans h0)
        simp [insertRow, lookupAcc, h0, hk, hk0, Ne.symm hk]
    · by_cases hk : k0 = k
      · have hkr : ¬(k = rowHash r) := fun e => h0 (hk.trans e)
        simp [insertRow, lookupAcc, h0, hk, hkr]
      · simp [insertRow, lookupAcc, h0, hk, ih]

theorem mem_keys_insertRow (pid : String) (r : JobRow) (acc : List (String × TemplateAcc))
    (k : String) :
    k ∈ (insertRow pid acc r).map Prod.fst
      ↔ k ∈ acc.map Prod.fst ∨ k = rowHash r := by
  induction acc with
  | nil => simp [insertRow, eq_comm]
  | cons head rest ih =>
    obtain ⟨k0, t0⟩ := head
    by_cases h0 : k0 = rowHash r
    · rw [show insertRow pid ((k0, t0) :: rest) r = (k0, addRun t0 r) :: rest from by
        simp [insertRow, h0]]
      simp only [List.map_cons, List.mem_cons]
      constructor
      · rintro (h | h)
        · exact Or.inr (h.trans h0)
        · exact Or.inl (Or.inr h)
      · rintro ((h | h) | h)
        · exact Or.inl h
        · exact Or.inr h
        · exact Or.inl (h.trans h0.symm)
    · rw [show insertRow pid ((k0, t0) :: rest) r = (k0, t0) :: insertRow pid rest r from by
        simp [insertRow, h0]]
      simp only [List.map_cons, List.mem_cons, ih]
      exact or_assoc.symm

theorem keys_nodup_insertRow (pid : String) (r : JobRow) (acc : List (String × TemplateAcc))
    (h : (acc.map Prod.fst).Nodup) :
    ((insertRow pid acc r).map Prod.fst).Nodup := by
  induction acc with
  | nil => simp [insertRow]
  | cons head rest ih =>
    obtain ⟨k0, t0⟩ := head
    rw [List.map_cons, List.nodup_cons] at h
    by_cases h0 : k0 = rowHash r
    · simp only [insertRow, if_pos h0, List.map_cons, List.nodup_cons]
      exact h
    · simp only [insertRow, if_neg h0, List.map_cons, List.nodup_cons]
      refine ⟨?_, ih h.2⟩
      rw [mem_keys_insertRow]
      rintro (hm | hm)
      · exact h.1 hm
      · exact h0 hm

/-- `total_runs` recorded under a key (0 when the key is absent). -/
def runsCount (k : String) (acc : List (String × TemplateAcc)) : Nat :=
  match lookupAcc k acc with
  | some t => t.total_runs
  | none => 0

theorem runsCount_insertRow (pid : String) (r : JobRow) (acc : List (String × TemplateAcc))
    (k : String) :
    runsCount k (insertRow pid acc r)
      = runsCount k acc + (if rowHash r = k then 1 else 0) := by
  unfold runsCount
  rw [lookupAcc_insertRow]
  by_cases h : k = rowHash r
  · rw [if_pos h, if_pos h.symm]
    cases hl : lookupAcc k acc <;> simp [hl, addRun, newTemplate]
  · rw [if_neg h, if_neg fun e => h e.symm]
    omega

theorem runsCount_foldl (pid : String) (rows : List JobRow)
    (acc : List (String × TemplateAcc)) (k : String) :
    runsCount k (rows.foldl (insertRow pid) acc)
      = runsCount k acc + (rows.filter fun r => rowHash r = k).length := by
  induction rows generalizing acc with
  | nil => simp
  | cons r rows ih =>
    rw [List.foldl_cons, ih, runsCount_insertRow]
    by_cases h : rowHash r = k
    · simp only [List.filter_cons]
      rw [if_pos (show decide (rowHash r = k) = true by simp [h]), if_pos h]
      simp only [List.length_cons]
      omega
    · simp only [List.filter_cons]
      rw [if_neg (show ¬decide (rowHash r = k) = true by simp [h]), if_neg h]
      omega

theorem lookupAcc_of_mem (k : String) (t : TemplateAcc) (acc : List (String × TemplateAcc))
    (hnd : (acc.map Prod.fst).Nodup) (hm : (k, t) ∈ acc) :
    lookupAcc k acc = some t := by
  induction acc with
  | nil => cases hm
  | cons head rest ih =>
    obtain ⟨k0, t0⟩ := head
    rw [List.map_cons, List.nodup_cons] at hnd
    rcases List.mem_cons.mp hm with he | hm2
    · obtain ⟨rfl, rfl⟩ := Prod.mk.injEq .. ▸ he
      · simp [lookupAcc]
    · have hk0 : ¬(k0 = k) := by
        rintro rfl
        exact hnd.1 (List.mem_map.mpr ⟨(k0, t), hm2, rfl⟩)
      simpa [lookupAcc, hk0] using ih hnd.2 hm2

theorem sum_runs_insertRow (pid : String) (r : JobRow) (acc : List (String × TemplateAcc)) :
    ((insertRow pid acc r).map fun kt => kt.2.total_runs).sum
      = ((acc.map fun kt => kt.2.total_runs).sum) + 1 := by
  induction acc with
  | nil => simp [insertRow, addRun, newTemplate]
  | cons head rest ih =>
    obtain ⟨k0, t0⟩ := head
    by_cases h0 : k0 = rowHash r
    · simp only [insertRow, if_pos h0, List.map_cons, List.sum_cons, addRun]
      omega
    · simp only [insertRow, if_neg h0, List.map_cons, List.sum_cons, ih]
      omega

theorem sum_runs_foldl (pid : String) (rows : List JobRow)
    (acc : List (String × TemplateAcc)) :
    ((rows.foldl (insertRow pid) acc).map fun kt => kt.2.total_runs).sum
      = ((acc.map fun kt => kt.2.total_runs).sum) + rows.length := by
  induction rows generalizing acc with
  | nil => simp
  | cons r rows ih =>
    rw [List.foldl_cons, ih, sum_runs_insertRow]
    simp only [List.length_cons]
    omega

/-- The invariant carried by every entry of the accumulated template map: the
entry's hash field is its key, `total_runs` counts its `runs` list, and both
are positive (an entry is created together with its first run). -/
def entryInv (kt : String × TemplateAcc) : Prop :=
  kt.2.template_hash = kt.1 ∧ kt.2.runs.length = kt.2.total_runs ∧ 0 < kt.2.total_runs

theorem entryInv_insertRow (pid : String) (r : JobRow) (acc : List (String × TemplateAcc))
    (hacc : ∀ kt ∈ acc, entryInv kt) :
    ∀ kt ∈ insertRow pid acc r, entryInv kt := by
  induction acc with
  | nil =>
    intro kt hkt
    simp only [insertRow, List.mem_singleton] at hkt
    subst hkt
    refine ⟨rfl, ?_, ?_⟩ <;> simp [addRun, newTemplate, rowHash]
  | cons head rest ih =>
    obtain ⟨k0, t0⟩ := head
    have h0inv := hacc (k0, t0) (List.mem_cons_self _ _)
    by_cases h0 : k0 = rowHash r
    · intro kt hkt
      rw [show insertRow pid ((k0, t0) :: rest) r = (k0, addRun t0 r) :: rest from by
        simp [insertRow, h0]] at hkt
      rcases List.mem_cons.mp hkt with he | hm
      · subst he
        refine ⟨?_, ?_, ?_⟩
        · show (addRun t0 r).template_hash = k0
          simpa [addRun] using h0inv.1
        · simp only [addRun, List.length_append, List.length_cons, List.length_nil]
          have := h0inv.2.1
          simp only at this
          omega
        · simp only [addRun]
          omega
      · exact hacc _ (List.mem_cons_of_mem _ hm)
    · intro kt hkt
      rcases List.mem_cons.mp (by simpa [insertRow, h0] using hkt) with he | hm
      · subst he
        exact h0inv
      · exact ih (fun kt h => hacc kt (List.mem_cons_of_mem _ h)) kt hm

theorem entryInv_foldl (pid : String) (rows : List JobRow)
    (acc : List (String × TemplateAcc)) (hacc : ∀ kt ∈ acc, entryInv kt) :
    ∀ kt ∈ rows.foldl (insertRow pid) acc, entryInv kt := by
  induction rows generalizing acc with
  | nil => exact hacc
  | cons r rows ih =>
    rw [List.foldl_cons]
    exact ih _ (entryInv_insertRow pid r acc hacc)

theorem groupRows_entryInv (pid : String) (rows : List JobRow) :
    ∀ kt ∈ groupRows pid rows, entryInv kt :=
  entryInv_foldl pid (rows.filter scanFilter) [] (by simp)

theorem groupRows_keys_nodup (pid : String) (rows : List JobRow) :
    ((groupRows pid rows).map Prod.fst).Nodup := by
  unfold groupRows
  generalize rows.filter scanFilter = rs
  suffices h : ∀ (rs : List JobRow) (acc : List (String × TemplateAcc)),
      (acc.map Prod.fst).Nodup → ((rs.foldl (insertRow pid) acc).map Prod.fst).Nodup by
    exact h rs [] (by simp)
  intro rs
  induction rs with
  | nil => exact fun acc h => h
  | cons r rs ih =>
    intro acc hacc
    rw [List.foldl_cons]
    exact ih _ (keys_nodup_insertRow pid r acc hacc)

/-- Projections of `computeStats` that copy the accumulator verbatim. -/
theorem computeStats_total_runs (w : Nat) (t : TemplateAcc) :
    (computeStats w t).total_runs = t.total_runs := rfl

theorem computeStats_template_hash (w : Nat) (t : TemplateAcc) :
    (computeStats w t).template_hash = t.template_hash := rfl

theorem computeStats_total_bytes (w : Nat) (t : TemplateAcc) :
    (computeStats w t).total_bytes_processed = t.total_bytes_processed := rfl

/-- C5, counterexample. An `INSERT` record with zero billed bytes but positive
processed bytes passes the scan filter and lands in a template with
`total_runs = 1`, although the claim's condition
(error present, or `bytes_billed <= 0`, or `statement_type != SELECT`)
declares it excluded on two counts. -/
theorem C5_exclusion_counterexample :
    scanFilter insertRow0 = true
    ∧ insertRow0.statement_type = "INSERT"
    ∧ insertRow0.total_bytes_billed = some 0
    ∧ (scan_project "p" 30 [insertRow0]).map TemplateStats.total_runs = [1] := by
  refine ⟨by decide, by decide, by decide, by decide⟩

/-- C5, amended: `scan_project` excludes a record exactly when an error is
present, or the query text is null, or `total_bytes_processed <= 0` (billed
bytes are not consulted), or the statement type is outside
{SELECT, INSERT, UPDATE, DELETE, MERGE}; the information-schema scanner
excludes exactly on error present, `total_bytes_billed <= 0`, or
`statement_type != SELECT`. In both pipelines an excluded record — in
particular any record with an error present — contributes to no template's
`total_runs`: the `total_runs` of the produced templates sum to the number
of records passing the filter. -/
theorem C5_exclusion_rule :
    (∀ r : JobRow, scanFilter r = true ↔
        (r.error_result = none ∧ r.query.isSome = true
          ∧ (∃ b : Int, r.total_bytes_processed = some b ∧ 0 < b)
          ∧ (r.statement_type = "SELECT" ∨ r.statement_type = "INSERT"
              ∨ r.statement_type = "UPDATE" ∨ r.statement_type = "DELETE"
              ∨ r.statement_type = "MERGE")))
    ∧ (∀ r : IsJob, infoSchemaFilter r = true ↔
        (r.error_present = false ∧ r.statement_type = "SELECT"
          ∧ ∃ b : Int, r.total_bytes_billed = some b ∧ 0 < b))
    ∧ (∀ r : JobRow, r.error_result.isSome = true → scanFilter r = false)
    ∧ (∀ (pid : String) (w : Nat) (rows : List JobRow),
        ((scan_project pid w rows).map TemplateStats.total_runs).sum
          = (rows.filter scanFilter).length) := by
  refine ⟨?_, ?_, ?_, ?_⟩
  · intro r
    cases hb : r.total_bytes_processed <;>
      simp [scanFilter, hb, Option.isNone_iff_eq_none, and_assoc] <;> tauto
  · intro r
    cases hb : r.total_bytes_billed <;>
      simp [infoSchemaFilter, hb, and_assoc] <;> tauto
  · intro r h
    obtain ⟨v, hv⟩ := Option.isSome_iff_exists.mp h
    simp [scanFilter, hv]
  · intro pid w rows
    have : (scan_project pid w rows).map TemplateStats.total_runs
        = (groupRows pid rows).map fun kt => kt.2.total_runs := by
      rw [scan_project, List.map_map]
      exact List.map_congr_left fun kt _ => computeStats_total_runs w kt.2
    rw [this]
    simpa using sum_runs_foldl pid (rows.filter scanFilter) []

/-- C7, counterexample. The claim's scenario demands cache-hit rates on the
produced templates; the only scan that computes a cache-hit rate is the
information-schema scanner, and its final select keeps only templates of
priority `CRITICAL`/`HIGH`/`MEDIUM`, so on the scenario's three records
(whose total costs are fractions of a cent, hence `LOW`) it produces zero
templates, not the claimed two. -/
theorem C7_scenario_counterexample :
    (scan_with_information_schema 5 scenarioIsRows).length = 0
    ∧ (0 : Nat) ≠ 2 := by
  constructor
  · norm_num [scan_with_information_schema, scenarioIsRows, sampleIsJob,
      infoSchemaFilter, insertByHash, isAggOf, infoSchemaCost, priorityLevel,
      List.filter, List.foldl]
  · decide

/-- C7, amended: `scan_project` groups the filtered records by the MD5 of
their normalized SQL pattern, producing exactly one template per distinct
hash (the hashes of the output are duplicate-free) with `total_runs` equal to
the number of contributing records; on the scenario's three records it
produces exactly two templates, pattern A with `total_runs = 2` and
`total_bytes_processed = 4e9` and pattern B with `total_runs = 1` and
`total_bytes_processed = 5e8` — but no cache-hit statistic, which
`scan_project` does not compute (its query does not even select `cache_hit`). -/
theorem C7_template_grouping :
    (∀ (pid : String) (w : Nat) (rows : List JobRow),
        ((scan_project pid w rows).map TemplateStats.template_hash).Nodup)
    ∧ (∀ (pid : String) (w : Nat) (rows : List JobRow) (t : TemplateStats),
        t ∈ scan_project pid w rows →
          t.total_runs
            = ((rows.filter scanFilter).filter fun r => rowHash r = t.template_hash).length)
    ∧ (scan_project "p" 30 scenarioRows).map
          (fun t => (t.total_runs, t.total_bytes_processed))
        = [(2, 4000000000), (1, 500000000)] := by
  refine ⟨?_, ?_, by decide⟩
  · intro pid w rows
    have : (scan_project pid w rows).map TemplateStats.template_hash
        = (groupRows pid rows).map Prod.fst := by
      rw [scan_project, List.map_map]
      refine List.map_congr_left fun kt hkt => ?_
      exact (computeStats_template_hash w kt.2).trans (groupRows_entryInv pid rows kt hkt).1
    rw [this]
    exact groupRows_keys_nodup pid rows
  · intro pid w rows t ht
    obtain ⟨kt, hkt, rfl⟩ := List.mem_map.mp ht
    have hinv := groupRows_entryInv pid rows kt hkt
    have hlk : lookupAcc kt.1 (groupRows pid rows) = some kt.2 :=
      lookupAcc_of_mem kt.1 kt.2 _ (groupRows_keys_nodup pid rows) hkt
    have hcount : runsCount kt.1 (groupRows pid rows)
        = ((rows.filter scanFilter).filter fun r => rowHash r = kt.1).length := by
      have := runsCount_foldl pid (rows.filter scanFilter) [] kt.1
      unfold groupRows
      simpa [runsCount, lookupAcc] using this
    rw [computeStats_total_runs, computeStats_template_hash, hinv.1]
    have : runsCount kt.1 (groupRows pid rows) = kt.2.total_runs := by
      simp [runsCount, hlk]
    omega

/-- C9: the percentile indices used by the aggregator are always within the
bounds of the sorted arrays for non-empty groups, and every produced template
comes from a non-empty group, so its percentile fields are all assigned — no
template with undefined percentiles is ever produced. -/
theorem C9_percentile_safety :
    (∀ n : Nat, 0 < n → p50Index n < n ∧ p90Index n < n ∧ p99Index n < n)
    ∧ (∀ (pid : String) (w : Nat) (rows : List JobRow) (t : TemplateStats),
        t ∈ scan_project pid w rows →
          0 < t.total_runs
          ∧ t.p50_bytes_processed.isSome = true
          ∧ t.p90_bytes_processed.isSome = true
          ∧ t.p99_bytes_processed.isSome = true
          ∧ t.p50_runtime_seconds.isSome = true
          ∧ t.p90_runtime_seconds.isSome = true) := by
  constructor
  · intro n hn
    refine ⟨Nat.div_lt_self hn (by norm_num), ?_, ?_⟩
    · exact (Nat.div_lt_iff_lt_mul (by norm_num)).mpr (by omega)
    · exact (Nat.div_lt_iff_lt_mul (by norm_num)).mpr (by omega)
  · intro pid w rows t ht
    obtain ⟨kt, hkt, rfl⟩ := List.mem_map.mp ht
    have hinv := groupRows_entryInv pid rows kt hkt
    have hne : kt.2.runs ≠ [] := by
      intro e
      obtain ⟨-, h2, h3⟩ := hinv
      rw [e] at h2
      simp only [List.length_nil] at h2
      omega
    have hbe : (List.insertionSort (· ≤ ·) (kt.2.runs.map RunData.bytes_processed)).isEmpty
        = false := by
      refine isEmpty_eq_false_of_ne_nil fun e => hne (List.length_eq_zero.mp ?_)
      have := congrArg List.length e
      rwa [List.length_insertionSort, List.length_map] at this
    have hre : (List.insertionSort (· ≤ ·) (kt.2.runs.map RunData.runtime_seconds)).isEmpty
        = false := by
      refine isEmpty_eq_false_of_ne_nil fun e => hne (List.length_eq_zero.mp ?_)
      have := congrArg List.length e
      rwa [List.length_insertionSort, List.length_map] at this
    refine ⟨?_, ?_, ?_, ?_, ?_, ?_⟩
    · rw [computeStats_total_runs]
      exact hinv.2.2
    all_goals simp [computeStats, hbe, hre]

/-! ### The normalizer on letter-only queries

For a query built from the letters `x`/`y` alone, every pass of
`normalize_sql_pattern` is the identity and normalization is plain
upper-casing. These lemmas let the 600-character witnesses of C10 be handled
by rewriting instead of a 600-step kernel evaluation. -/

theorem stripLineComments_xy (fuel : Nat) :
    ∀ s : List Char, (∀ c ∈ s, c = 'x' ∨ c = 'y') → stripLineComments fuel s = s := by
  induction fuel with
  | zero => intro s _; rfl
  | succ f ih =>
    intro s h
    cases s with
    | nil => rfl
    | cons c rest =>
      have hrest : ∀ c ∈ rest, c = 'x' ∨ c = 'y' :=
        fun c hc => h c (List.mem_cons_of_mem _ hc)
      rcases h c (List.mem_cons_self _ _) with rfl | rfl
      · show 'x' :: stripLineComments f rest = 'x' :: rest
        rw [ih rest hrest]
      · show 'y' :: stripLineComments f rest = 'y' :: rest
        rw [ih rest hrest]

theorem stripBlockComments_xy (fuel : Nat) :
    ∀ s : List Char, (∀ c ∈ s, c = 'x' ∨ c = 'y') → stripBlockComments fuel s = s := by
  induction fuel with
  | zero => intro s _; rfl
  | succ f ih =>
    intro s h
    cases s with
    | nil => rfl
    | cons c rest =>
      have hrest : ∀ c ∈ rest, c = 'x' ∨ c = 'y' :=
        fun c hc => h c (List.mem_cons_of_mem _ hc)
      rcases h c (List.mem_cons_self _ _) with rfl | rfl
      · show 'x' :: stripBlockComments f rest = 'x' :: rest
        rw [ih rest hrest]
      · show 'y' :: stripBlockComments f rest = 'y' :: rest
        rw [ih rest hrest]

theorem pyWords_nospace :
    ∀ (s acc : List Char), (∀ c ∈ s, isPySpace c = false) → acc ≠ [] →
      pyWords s acc = [acc.reverse ++ s] := by
  intro s
  induction s with
  | nil =>
    intro acc _ hacc
    simp [pyWords, isEmpty_eq_false_of_ne_nil hacc]
  | cons c rest ih =>
    intro acc h hacc
    have hc := h c (List.mem_cons_self _ _)
    have hstep : pyWords (c :: rest) acc = pyWords rest (c :: acc) := by
      simp [pyWords, hc]
    rw [hstep, ih (c :: acc) (fun c hc => h c (List.mem_cons_of_mem _ hc))
      (List.cons_ne_nil _ _)]
    simp

theorem collapseWs_nospace :
    ∀ s : List Char, (∀ c ∈ s, isPySpace c = false) → collapseWs s = s := by
  intro s h
  cases s with
  | nil => rfl
  | cons c rest =>
    have hc := h c (List.mem_cons_self _ _)
    have hstep : pyWords (c :: rest) [] = pyWords rest [c] := by
      simp [pyWords, hc]
    unfold collapseWs
    rw [hstep, pyWords_nospace rest [c]
      (fun c hc => h c (List.mem_cons_of_mem _ hc)) (List.cons_ne_nil _ _)]
    simp [List.intercalate]

theorem replaceQuoted_noq (q : Char) (fuel : Nat) :
    ∀ s : List Char, (∀ c ∈ s, c ≠ q) → replaceQuoted q fuel s = s := by
  induction fuel with
  | zero => intro s _; rfl
  | succ f ih =>
    intro s h
    cases s with
    | nil => rfl
    | cons c rest =>
      simp only [replaceQuoted]
      rw [if_neg (h c (List.mem_cons_self _ _)),
        ih rest fun c hc => h c (List.mem_cons_of_mem _ hc)]

theorem replaceNumbers_nodigit (fuel : Nat) :
    ∀ (prevWord : Bool) (s : List Char), (∀ c ∈ s, c.isDigit = false) →
      replaceNumbers fuel prevWord s = s := by
  induction fuel with
  | zero => intro _ s _; rfl
  | succ f ih =>
    intro prevWord s h
    cases s with
    | nil => rfl
    | cons c rest =>
      simp only [replaceNumbers]
      rw [if_neg (by simp [h c (List.mem_cons_self _ _)]),
        ih _ rest fun c hc => h c (List.mem_cons_of_mem _ hc)]

theorem replaceFnCall_nokey (k0 : Char) (ks repl : List Char) (fuel : Nat) :
    ∀ s : List Char, (∀ c ∈ s, c.toLower ≠ k0) →
      replaceFnCall (k0 :: ks) repl fuel s = s := by
  induction fuel with
  | zero => intro s _; rfl
  | succ f ih =>
    intro s h
    cases s with
    | nil => rfl
    | cons c rest =>
      have hm : matchKeywordCI (k0 :: ks) (c :: rest) = none := by
        show (if c.toLower = k0 then matchKeywordCI ks rest else none) = none
        rw [if_neg (h c (List.mem_cons_self _ _))]
      have hstep : replaceFnCall (k0 :: ks) repl (f + 1) (c :: rest)
          = c :: replaceFnCall (k0 :: ks) repl f rest := by
        simp only [replaceFnCall, hm]
      rw [hstep, ih rest fun c hc => h c (List.mem_cons_of_mem _ hc)]

theorem dropWhile_nospace (s : List Char) (h : ∀ c ∈ s, isPySpace c = false) :
    s.dropWhile isPySpace = s := by
  cases s with
  | nil => rfl
  | cons c rest => simp [List.dropWhile_cons, h c (List.mem_cons_self _ _)]

theorem stripEnds_nospace (s : List Char) (h : ∀ c ∈ s, isPySpace c = false) :
    stripEnds s = s := by
  unfold stripEnds
  rw [dropWhile_nospace s h,
    dropWhile_nospace s.reverse fun c hc => h c (List.mem_reverse.mp hc),
    List.reverse_reverse]

/-- On a non-empty query of `x`/`y` letters, normalization is upper-casing. -/
theorem normalize_xy (s : String) (hne : ¬(s = ""))
    (hxy : ∀ c ∈ s.data, c = 'x' ∨ c = 'y') :
    normalize_sql_pattern s = String.mk (s.data.map Char.toUpper) := by
  have hq1 : ∀ c ∈ s.data, c ≠ '\'' := fun c hc => by
    rcases hxy c hc with rfl | rfl <;> decide
  have hq2 : ∀ c ∈ s.data, c ≠ '"' := fun c hc => by
    rcases hxy c hc with rfl | rfl <;> decide
  have hd : ∀ c ∈ s.data, c.isDigit = false := fun c hc => by
    rcases hxy c hc with rfl | rfl <;> decide
  have hsp : ∀ c ∈ s.data, isPySpace c = false := fun c hc => by
    rcases hxy c hc with rfl | rfl <;> decide
  have hkd : ∀ c ∈ s.data, c.toLower ≠ 'd' := fun c hc => by
    rcases hxy c hc with rfl | rfl <;> decide
  have hkt : ∀ c ∈ s.data, c.toLower ≠ 't' := fun c hc => by
    rcases hxy c hc with rfl | rfl <;> decide
  have hup : ∀ c ∈ s.data.map Char.toUpper, isPySpace c = false := by
    intro c hc
    obtain ⟨c', hc', rfl⟩ := List.mem_map.mp hc
    rcases hxy c' hc' with rfl | rfl <;> decide
  simp only [normalize_sql_pattern]
  rw [if_neg hne, stripLineComments_xy _ _ hxy, stripBlockComments_xy _ _ hxy,
    collapseWs_nospace _ hsp, replaceQuoted_noq _ _ _ hq1, replaceQuoted_noq _ _ _ hq2,
    replaceNumbers_nodigit _ _ _ hd, replaceFnCall_nokey _ _ _ _ _ hkd,
    replaceFnCall_nokey _ _ _ _ _ hkt, stripEnds_nospace _ hup]

/-- A raw query of 600 `x` characters. -/
def longQueryA : String := String.mk (List.replicate 600 'x')

/-- A raw query agreeing with `longQueryA` on its first 599 characters but
ending in `y`: the normalized patterns differ only beyond position 500. -/
def longQueryB : String := String.mk (List.replicate 599 'x' ++ ['y'])

/-- C10: the stored document id is the MD5 of `project_id:` followed by the
display pattern, the normalized pattern truncated to its first 500
characters; hence two queries whose normalized patterns agree on their first
500 characters share one document id — and merge into a single stored
document — even when their full normalized patterns differ. -/
theorem C10_doc_id_truncation :
    (∀ (pid q1 q2 : String),
        (normalize_sql_pattern q1).take 500 = (normalize_sql_pattern q2).take 500 →
          storedTemplateDocId pid q1 = storedTemplateDocId pid q2)
    ∧ storedTemplateDocId "p" longQueryA = storedTemplateDocId "p" longQueryB
    ∧ normalize_sql_pattern longQueryA ≠ normalize_sql_pattern longQueryB := by
  have main : ∀ (pid q1 q2 : String),
      (normalize_sql_pattern q1).take 500 = (normalize_sql_pattern q2).take 500 →
        storedTemplateDocId pid q1 = storedTemplateDocId pid q2 := by
    intro pid q1 q2 h
    unfold storedTemplateDocId generate_template_id
    rw [h]
  have hA : normalize_sql_pattern longQueryA = String.mk (List.replicate 600 'X') := by
    rw [normalize_xy longQueryA (by decide)
      (fun c hc => Or.inl (List.eq_of_mem_replicate hc))]
    show String.mk ((List.replicate 600 'x').map Char.toUpper) = _
    rw [List.map_replicate, show Char.toUpper 'x' = 'X' from by decide]
  have hB : normalize_sql_pattern longQueryB
      = String.mk (List.replicate 599 'X' ++ ['Y']) := by
    rw [normalize_xy longQueryB (by decide) ?hmem]
    case hmem =>
      intro c hc
      rcases List.mem_append.mp hc with hc | hc
      · exact Or.inl (List.eq_of_mem_replicate hc)
      · exact Or.inr (List.mem_singleton.mp hc)
    show String.mk ((List.replicate 599 'x' ++ ['y']).map Char.toUpper) = _
    rw [List.map_append, List.map_replicate, show Char.toUpper 'x' = 'X' from by decide,
      show List.map Char.toUpper ['y'] = ['Y'] from by decide]
  have htake : (normalize_sql_pattern longQueryA).take 500
      = (normalize_sql_pattern longQueryB).take 500 := by
    rw [hA, hB]
    apply String.ext
    rw [String.data_take, String.data_take]
    show List.take 500 (List.replicate 600 'X')
        = List.take 500 (List.replicate 599 'X' ++ ['Y'])
    rw [List.take_append_of_le_length (by rw [List.length_replicate]; norm_num),
      List.take_replicate, List.take_replicate]
    norm_num
  have hneq : normalize_sql_pattern longQueryA ≠ normalize_sql_pattern longQueryB := by
    rw [hA, hB]
    intro e
    have hdata : List.replicate 600 'X' = List.replicate 599 'X' ++ ['Y'] :=
      congrArg String.data e
    rw [show (List.replicate 600 'X' : List Char)
        = List.replicate 599 'X' ++ ['X'] from List.replicate_succ' .. ] at hdata
    have hlast := congrArg List.getLast? hdata
    rw [List.getLast?_concat, List.getLast?_concat] at hlast
    exact absurd (Option.some.inj hlast) (by decide)
  exact ⟨main, main "p" _ _ htake, hneq⟩

end BQOpt
